import Mathlib

/-
Verification of the orchestration layer of itsHabib/sim, a CLI that keeps an
object store (AWS S3) and a metadata document store consistent across four
operations: upload, delete, download and list.

The embedding is a shallow one.  Each Go service method from
src/internal/images/service/service.go becomes a Lean function that mirrors the
method's control flow statement by statement.  The external dependencies
(the AWS session getter, the S3 uploader/client/downloader, and the
database-backed reader/writer) are modelled by environment records carrying the
outcome each dependency would return, together with an explicit world state
(the set of object keys in cloud storage and the list of metadata records in
the database).  Each method also emits the ordered trace of external calls it
performs, so that ordering and never-called properties can be stated directly.
-/

/-- Go errors as used by the sim codebase: the two named domain errors from
internal/images/errors.go, AWS SDK errors carrying a code (awserr.Error),
plain errors.New strings, and fmt.Errorf("msg: %w", err) wrapping. -/
inductive GoErr where
  | recordNotFound
  | objectNotFound
  | awsError (code : String)
  | goError (msg : String)
  | wrapped (msg : String) (cause : GoErr)
deriving DecidableEq

/-- Helper for stringsContains: the character list starts with the pattern. -/
def listStartsWith : List Char → List Char → Bool
  | _, [] => true
  | [], _ :: _ => false
  | a :: as, b :: bs => a == b && listStartsWith as bs

/-- Helper for stringsContains: the pattern occurs contiguously somewhere in
the character list. -/
def listOccurs : List Char → List Char → Bool
  | [], pat => listStartsWith [] pat
  | a :: rest, pat => listStartsWith (a :: rest) pat || listOccurs rest pat

/-- strings.Contains from the Go standard library: substr occurs contiguously
inside s. -/
def stringsContains (s substr : String) : Bool :=
  listOccurs s.data substr.data

/-- Decidable equality for Except values, so that concrete runs of the
embedded operations can be checked by evaluation. -/
instance exceptDecEq {ε α : Type} [DecidableEq ε] [DecidableEq α] :
    DecidableEq (Except ε α)
  | .error e1, .error e2 => decidable_of_iff (e1 = e2) (by simp)
  | .error _, .ok _ => isFalse (fun h => Except.noConfusion h)
  | .ok _, .error _ => isFalse (fun h => Except.noConfusion h)
  | .ok a1, .ok a2 => decidable_of_iff (a1 = a2) (by simp)

/-- s3.ErrCodeNoSuchKey from the AWS SDK. -/
def s3ErrCodeNoSuchKey : String := "NoSuchKey"

/-- Modelled from the spec: the metadata record ("holding metadata records
that point at those bytes").  The current declaration of images.Record is not
under src/ (src/internal/images/images.go is an earlier revision using a field
named Size); the fields here are the ones the service layer
(src/internal/images/service/service.go lines 261-269) reads and writes:
ID, CreatedAt, ETag, Key, Name, SizeInBytes, Storage.  CreatedAt (a Go
*time.Time) is modelled as an optional timestamp, SizeInBytes (int64) as Int. -/
structure Record where
  ID : String
  CreatedAt : Option Nat
  ETag : String
  Key : String
  Name : String
  SizeInBytes : Int
  Storage : String
deriving DecidableEq

/-- Modelled from the spec: the summary view of the list operation ("list
(query metadata store, project to summary view)").  The declaration of
images.Image is not under src/; its fields are read off the composite literal
built by Service.List (service.go lines 201-205): ID, Name, SizeInBytes. -/
structure Image where
  ID : String
  Name : String
  SizeInBytes : Int
deriving DecidableEq

/-- images.UploadRequest: the name for the image and the body of bytes to
upload (the Go io.Reader is modelled as the byte list it yields). -/
structure UploadRequest where
  Name : String
  Body : List Nat
deriving DecidableEq

/-- images.DownloadRequest: the id of the image and the io.WriterAt stream the
object is downloaded into, modelled by the path of the local file backing it. -/
structure DownloadRequest where
  ID : String
  Stream : String
deriving DecidableEq

/-- The part of the world the two stores hold: the keys present in cloud
storage and the metadata records present in the database. -/
structure State where
  objects : List String
  records : List Record
deriving DecidableEq

/-- The external calls a service method can perform, in the order it performs
them.  getSession is a call to the injected images.SessionGetter; putObject,
headObject, deleteObject and downloadObject are object-store (S3) calls;
getRecord, createRecord and deleteRecord are metadata-store calls through the
images.Reader/Writer interfaces. -/
inductive Event where
  | getSession
  | putObject (key : String)
  | headObject (key : String)
  | downloadObject (key : String) (stream : String)
  | deleteObject (key : String)
  | getRecord (id : String)
  | createRecord (rec : Record)
  | deleteRecord (id : String)
deriving DecidableEq

/-- The service under verification; of its dependencies only the storage
(bucket) name influences the data flow, the reader/writer/session/SDK
dependencies are modelled by the per-call environments below. -/
structure Service where
  storage : String
deriving DecidableEq

/-- s3.HeadObjectOutput restricted to the fields Upload reads; both are
pointers in Go, hence Option here. -/
structure HeadObjectOutput where
  ETag : Option String
  ContentLength : Option Int
deriving DecidableEq

/-- Outcomes of the external dependencies during one Upload call:
the session getter, the s3manager uploader, the HeadObject client call, the
writer.Create call, plus the fresh uuid.New id and the time.Now timestamp. -/
structure UploadEnv where
  session : Except GoErr Unit
  uploadResult : Option GoErr
  headResult : Except GoErr HeadObjectOutput
  createResult : Option GoErr
  imageID : String
  now : Nat
deriving DecidableEq

/-- uploadKey from service.go lines 344-346. -/
def uploadKey (r : UploadRequest) (imageID : String) : String :=
  "images/" ++ imageID ++ "/" ++ r.Name

/-- Result, final state and call trace of one Upload invocation. -/
structure UploadOutcome where
  result : Except GoErr String
  state : State
  trace : List Event
deriving DecidableEq

/-- Service.Upload, service.go lines 213-278: get a session, generate a fresh
image id, upload the object under uploadKey, head the object, reject nil
ETag/ContentLength, then create the metadata record. -/
def Service.Upload (s : Service) (env : UploadEnv) (r : UploadRequest)
    (st : State) : UploadOutcome :=
  match env.session with
  | .error e =>
      ⟨.error (.wrapped "unable to get AWS session" e), st, [.getSession]⟩
  | .ok _ =>
    let imageID := env.imageID
    let key := uploadKey r imageID
    match env.uploadResult with
    | some e =>
        ⟨.error (.wrapped "unable to upload image" e), st,
          [.getSession, .putObject key]⟩
    | none =>
      let st1 : State := { st with objects := st.objects ++ [key] }
      match env.headResult with
      | .error e =>
          ⟨.error (.wrapped "unable to head object" e), st1,
            [.getSession, .putObject key, .headObject key]⟩
      | .ok resp =>
        if resp.ETag.isNone || resp.ContentLength.isNone then
          ⟨.error (.goError "etag and/or content length is nil, unable to save metadata"),
            st1, [.getSession, .putObject key, .headObject key]⟩
        else
          let image : Record :=
            { ID := imageID
              CreatedAt := some env.now
              ETag := resp.ETag.getD ""
              Key := key
              Name := r.Name
              SizeInBytes := resp.ContentLength.getD 0
              Storage := s.storage }
          match env.createResult with
          | some e =>
              ⟨.error (.wrapped "unable to create image record" e), st1,
                [.getSession, .putObject key, .headObject key, .createRecord image]⟩
          | none =>
              ⟨.ok imageID, { st1 with records := st1.records ++ [image] },
                [.getSession, .putObject key, .headObject key, .createRecord image]⟩

/-- reader.Service.Get as both database backends implement it (see
src/unnamed/part_002: couchbase lines 146-171, dynamodb lines 309-342): look
the record up by id in the store, returning images.ErrRecordNotFound when it
is absent; an optional injected fault models the underlying SDK failing. -/
def readerGet (fault : Option GoErr) (records : List Record) (id : String) :
    Except GoErr Record :=
  match fault with
  | some e => .error e
  | none =>
    match records.find? (fun rec => rec.ID == id) with
    | some rec => .ok rec
    | none => .error .recordNotFound

/-- Outcomes of the external dependencies during one Delete call: an optional
injected reader.Get fault, the session getter, the S3 DeleteObject result and
the writer.Delete result. -/
structure DeleteEnv where
  getFault : Option GoErr
  session : Except GoErr Unit
  deleteObjectResult : Option GoErr
  writerDeleteResult : Option GoErr
deriving DecidableEq

/-- Result, final state and call trace of one Delete (or deleteObject)
invocation. -/
structure DeleteOutcome where
  result : Except GoErr Unit
  state : State
  trace : List Event
deriving DecidableEq

/-- Service.deleteObject, service.go lines 280-304: get a session, call S3
DeleteObject; an awserr whose code is not s3.ErrCodeNoSuchKey but contains
"NotFound" means the object is already gone and is swallowed (nil is
returned), every other failure is wrapped and returned. -/
def Service.deleteObject (s : Service) (env : DeleteEnv) (key : String)
    (st : State) : DeleteOutcome :=
  match env.session with
  | .error e =>
      ⟨.error (.wrapped "unable to get AWS session" e), st, [.getSession]⟩
  | .ok _ =>
    match env.deleteObjectResult with
    | some e =>
      match e with
      | .awsError code =>
        if code != s3ErrCodeNoSuchKey && stringsContains code "NotFound" then
          ⟨.ok (), st, [.getSession, .deleteObject key]⟩
        else
          ⟨.error (.wrapped "unable to delete object" (.awsError code)), st,
            [.getSession, .deleteObject key]⟩
      | _ =>
          ⟨.error (.wrapped "unable to delete object" e), st,
            [.getSession, .deleteObject key]⟩
    | none =>
        ⟨.ok (), { st with objects := st.objects.filter (fun k => k ≠ key) },
          [.getSession, .deleteObject key]⟩

/-- Service.Delete, service.go lines 105-138: read the record by id, delete
the object stored at the record's Key, then delete the record; a
writer.Delete result of nil or images.ErrRecordNotFound both count as
success. -/
def Service.Delete (s : Service) (env : DeleteEnv) (id : String)
    (st : State) : DeleteOutcome :=
  match readerGet env.getFault st.records id with
  | .error .recordNotFound => ⟨.error .recordNotFound, st, [.getRecord id]⟩
  | .error e =>
      ⟨.error (.wrapped "unable to retrieve image record" e), st,
        [.getRecord id]⟩
  | .ok rec =>
    let d := Service.deleteObject s env rec.Key st
    match d.result with
    | .error e =>
        ⟨.error (.wrapped "unable to delete object" e), d.state,
          .getRecord id :: d.trace⟩
    | .ok _ =>
      match env.writerDeleteResult with
      | none =>
          ⟨.ok (),
            { d.state with
                records := d.state.records.filter (fun rec2 => rec2.ID ≠ id) },
            .getRecord id :: d.trace ++ [.deleteRecord id]⟩
      | some .recordNotFound =>
          ⟨.ok (), d.state, .getRecord id :: d.trace ++ [.deleteRecord id]⟩
      | some e =>
          ⟨.error (.wrapped "unable to delete record" e), d.state,
            .getRecord id :: d.trace ++ [.deleteRecord id]⟩

/-- Outcomes of the external dependencies during one Download call: an
optional injected reader.Get fault, the session getter and the s3manager
downloader result. -/
structure DownloadEnv where
  getFault : Option GoErr
  session : Except GoErr Unit
  downloadResult : Option GoErr
deriving DecidableEq

/-- Result and call trace of one Download invocation (Download never changes
either store). -/
structure DownloadOutcome where
  result : Except GoErr Unit
  trace : List Event
deriving DecidableEq

/-- Service.Download, service.go lines 142-184: read the record by the
requested id, get a session, then stream the object at the record's Key into
the request's stream; a NoSuchKey awserr from the downloader is mapped to
images.ErrObjectNotFound, any other downloader failure is wrapped. -/
def Service.Download (s : Service) (env : DownloadEnv) (r : DownloadRequest)
    (st : State) : DownloadOutcome :=
  match readerGet env.getFault st.records r.ID with
  | .error .recordNotFound => ⟨.error .recordNotFound, [.getRecord r.ID]⟩
  | .error e =>
      ⟨.error (.wrapped "unable to retrieve image record" e), [.getRecord r.ID]⟩
  | .ok rec =>
    match env.session with
    | .error e =>
        ⟨.error (.wrapped "unable to get AWS session" e),
          [.getRecord r.ID, .getSession]⟩
    | .ok _ =>
      match env.downloadResult with
      | some e =>
        match e with
        | .awsError code =>
          if code == s3ErrCodeNoSuchKey then
            ⟨.error .objectNotFound,
              [.getRecord r.ID, .getSession, .downloadObject rec.Key r.Stream]⟩
          else
            ⟨.error (.wrapped "unable to download file" (.awsError code)),
              [.getRecord r.ID, .getSession, .downloadObject rec.Key r.Stream]⟩
        | _ =>
            ⟨.error (.wrapped "unable to download file" e),
              [.getRecord r.ID, .getSession, .downloadObject rec.Key r.Stream]⟩
      | none =>
          ⟨.ok (),
            [.getRecord r.ID, .getSession, .downloadObject rec.Key r.Stream]⟩

/-- The projection Service.List applies to each record (the composite literal
at service.go lines 201-205): only ID, Name and SizeInBytes survive. -/
def recordSummary (rec : Record) : Image :=
  { ID := rec.ID, Name := rec.Name, SizeInBytes := rec.SizeInBytes }

/-- Service.List, service.go lines 187-209, as a function of the outcome of
the reader.List call it starts with: images.ErrRecordNotFound is passed
through unchanged, other reader failures are wrapped, and a successful list
of records is mapped elementwise to the Image summary view. -/
def Service.List (listResult : Except GoErr (List Record)) :
    Except GoErr (List Image) :=
  match listResult with
  | .error .recordNotFound => .error .recordNotFound
  | .error e => .error (.wrapped "unable to list records" e)
  | .ok records => .ok (records.map recordSummary)

/-- reader.Service.Get of the couchbase backend, src/unnamed/part_002 lines
146-171: collection.Get by document key (records are inserted under their ID,
see writer.Create in src/internal/images/writer/writer.go line 106);
gocb.ErrDocumentNotFound becomes images.ErrRecordNotFound. -/
def couchbaseGet (store : List Record) (id : String) : Except GoErr Record :=
  match store.find? (fun rec => rec.ID == id) with
  | none => .error .recordNotFound
  | some rec => .ok rec

/-- reader.Service.Get of the dynamodb backend, src/unnamed/part_002 lines
309-342: GetItem by the id key; an empty Item map becomes
images.ErrRecordNotFound, otherwise the item is unmarshalled. -/
def dynamoGet (store : List Record) (id : String) : Except GoErr Record :=
  match store.find? (fun rec => rec.ID == id) with
  | none => .error .recordNotFound
  | some rec => .ok rec

/-- reader.Service.List of the couchbase backend, src/unnamed/part_002 lines
176-207: accumulate the query's rows one by one, then return
images.ErrRecordNotFound if the accumulated list is empty. -/
def couchbaseList (store : List Record) : Except GoErr (List Record) :=
  let list := store.foldl (fun acc rec => acc ++ [rec]) []
  if list.length == 0 then .error .recordNotFound else .ok list

/-- reader.Service.List of the dynamodb backend, src/unnamed/part_002 lines
346-368: Scan the table and unmarshal every item; an empty table yields an
empty list and no error. -/
def dynamoList (store : List Record) : Except GoErr (List Record) :=
  .ok store

/-- The flag-bound fields of the runner's command struct,
src/internal/runner/runner.go lines 199-204: filePath is bound to --file,
imageName to --name, imageID to --imageId. -/
structure RunnerCommand where
  filePath : String
  imageName : String
  imageID : String
deriving DecidableEq

/-- The images.DownloadRequest built by Runner.runDownloadCommand,
src/internal/runner/runner.go lines 129-132: the ID field is set from
r.command.filePath and the stream is the file created at r.command.filePath. -/
def Runner.downloadRequest (c : RunnerCommand) : DownloadRequest :=
  { ID := c.filePath, Stream := c.filePath }

/-- Runner.runDownloadCommand, src/internal/runner/runner.go lines 119-144:
create the local file at the --file path and call Service.Download with the
request it builds. -/
def Runner.runDownloadCommand (s : Service) (env : DownloadEnv)
    (c : RunnerCommand) (st : State) : DownloadOutcome :=
  Service.Download s env (Runner.downloadRequest c) st

/-- The images.DownloadRequest built by the cmd package's
runDownloadCommand, src/cmd/cmd.go lines 126-129: the ID field is set from
r.imageID (the --imageId flag) and the stream is the file created at
r.downloadFilePath (the --file flag). -/
def Cmd.downloadRequest (imageID downloadFilePath : String) : DownloadRequest :=
  { ID := imageID, Stream := downloadFilePath }

/-- Concrete service instance used by the witnesses below. -/
def sampleService : Service := { storage := "sim" }

/-- Concrete upload request used by the witnesses below. -/
def sampleRequest : UploadRequest := { Name := "cat.png", Body := [1, 2] }

/-- Concrete stored record used by the witnesses below. -/
def sampleRecord : Record :=
  { ID := "abc123", CreatedAt := some 5, ETag := "etag-1",
    Key := "images/abc123/cat.png", Name := "cat.png", SizeInBytes := 2,
    Storage := "sim" }

/-- Concrete world holding sampleRecord and its object. -/
def sampleState : State :=
  { objects := ["images/abc123/cat.png"], records := [sampleRecord] }

/-- Concrete empty world. -/
def emptyState : State := { objects := [], records := [] }

/-- Upload environment in which every dependency succeeds. -/
def uploadEnvHappy : UploadEnv :=
  { session := .ok (), uploadResult := none,
    headResult := .ok { ETag := some "etag-1", ContentLength := some 2 },
    createResult := none, imageID := "id-1", now := 5 }

/-- Upload environment in which the object upload fails. -/
def uploadEnvUploadFails : UploadEnv :=
  { uploadEnvHappy with uploadResult := some (.goError "random") }

/-- Upload environment in which the record creation fails. -/
def uploadEnvCreateFails : UploadEnv :=
  { uploadEnvHappy with createResult := some (.goError "random") }

/-- Upload environment in which head-object reports a nil ETag. -/
def uploadEnvNilETag : UploadEnv :=
  { uploadEnvHappy with
      headResult := .ok { ETag := none, ContentLength := some 2 } }

/-- The record uploadEnvHappy makes Upload create for sampleRequest. -/
def uploadedRecord : Record :=
  { ID := "id-1", CreatedAt := some 5, ETag := "etag-1",
    Key := "images/id-1/cat.png", Name := "cat.png", SizeInBytes := 2,
    Storage := "sim" }

/-- Delete environment in which every dependency succeeds. -/
def deleteEnvHappy : DeleteEnv :=
  { getFault := none, session := .ok (), deleteObjectResult := none,
    writerDeleteResult := none }

/-- Download environment in which every dependency succeeds. -/
def downloadEnvHappy : DownloadEnv :=
  { getFault := none, session := .ok (), downloadResult := none }

/-- Claim C1: in every run of Service.Upload, the writer.Create call happens
only after the object upload and the subsequent head-object call succeeded
(whenever a createRecord call appears in the trace, the trace is exactly
session, putObject, headObject, createRecord in that order, the uploader
returned no error and HeadObject returned a response); and if the object
upload fails, Upload returns an error, never calls writer.Create, and leaves
the metadata store unchanged. -/
theorem upload_object_precedes_record (s : Service) (env : UploadEnv)
    (r : UploadRequest) (st : State) :
    (∀ rec, Event.createRecord rec ∈ (Service.Upload s env r st).trace →
      (Service.Upload s env r st).trace =
        [Event.getSession, Event.putObject (uploadKey r env.imageID),
         Event.headObject (uploadKey r env.imageID), Event.createRecord rec] ∧
      env.uploadResult = none ∧ ∃ resp, env.headResult = Except.ok resp) ∧
    (∀ e, env.uploadResult = some e →
      (∃ e2, (Service.Upload s env r st).result = Except.error e2) ∧
      (∀ rec, Event.createRecord rec ∉ (Service.Upload s env r st).trace) ∧
      (Service.Upload s env r st).state.records = st.records) := by
  obtain ⟨sess, upl, head, create, id0, now0⟩ := env
  cases sess with
  | error e => simp [Service.Upload]
  | ok u =>
    cases upl with
    | some e => simp [Service.Upload]
    | none =>
      cases head with
      | error e => simp [Service.Upload]
      | ok resp =>
        obtain ⟨et, cl⟩ := resp
        cases et <;> cases cl <;> cases create <;>
          simp [Service.Upload, uploadKey]

/-- Witness for upload_object_precedes_record: the happy-path environment
creates the record last, and the failing-upload environment creates none. -/
theorem upload_object_precedes_record_witness :
    ((Service.Upload sampleService uploadEnvHappy sampleRequest emptyState).trace =
        [Event.getSession,
         Event.putObject (uploadKey sampleRequest uploadEnvHappy.imageID),
         Event.headObject (uploadKey sampleRequest uploadEnvHappy.imageID),
         Event.createRecord uploadedRecord] ∧
      uploadEnvHappy.uploadResult = none ∧
      ∃ resp, uploadEnvHappy.headResult = Except.ok resp) ∧
    ((∃ e2, (Service.Upload sampleService uploadEnvUploadFails sampleRequest
        emptyState).result = Except.error e2) ∧
      (∀ rec, Event.createRecord rec ∉
        (Service.Upload sampleService uploadEnvUploadFails sampleRequest
          emptyState).trace) ∧
      (Service.Upload sampleService uploadEnvUploadFails sampleRequest
        emptyState).state.records = emptyState.records) :=
  ⟨(upload_object_precedes_record sampleService uploadEnvHappy sampleRequest
      emptyState).1 uploadedRecord (by decide),
   (upload_object_precedes_record sampleService uploadEnvUploadFails
      sampleRequest emptyState).2 (GoErr.goError "random") rfl⟩

/-- Claim C2: when the metadata record for the id exists and every dependency
succeeds, Service.Delete succeeds, removes the object stored at the record's
Key from the object store and the record from the metadata store, and its
call trace is exactly: read the record by id, (get a session,) delete the
object at the record's Key, delete the record — in that order. -/
theorem delete_removes_object_and_record (s : Service) (env : DeleteEnv)
    (id : String) (st : State) (rec : Record)
    (hget : env.getFault = none)
    (hfind : st.records.find? (fun r2 => r2.ID == id) = some rec)
    (hsess : env.session = Except.ok ())
    (hdel : env.deleteObjectResult = none)
    (hwd : env.writerDeleteResult = none) :
    (Service.Delete s env id st).result = Except.ok () ∧
    (Service.Delete s env id st).state.objects =
      st.objects.filter (fun k => k ≠ rec.Key) ∧
    (Service.Delete s env id st).state.records =
      st.records.filter (fun r2 => r2.ID ≠ id) ∧
    (Service.Delete s env id st).trace =
      [Event.getRecord id, Event.getSession, Event.deleteObject rec.Key,
       Event.deleteRecord id] := by
  obtain ⟨gf, sess, dor, wdr⟩ := env
  simp only at hget hsess hdel hwd
  subst hget hsess hdel hwd
  simp [Service.Delete, Service.deleteObject, readerGet, hfind]

/-- Witness for delete_removes_object_and_record: deleting sampleRecord from
sampleState with the healthy environment empties both stores. -/
theorem delete_removes_object_and_record_witness :
    (Service.Delete sampleService deleteEnvHappy "abc123" sampleState).result =
      Except.ok () ∧
    (Service.Delete sampleService deleteEnvHappy "abc123" sampleState).state.objects =
      sampleState.objects.filter (fun k => k ≠ sampleRecord.Key) ∧
    (Service.Delete sampleService deleteEnvHappy "abc123" sampleState).state.records =
      sampleState.records.filter (fun r2 => r2.ID ≠ "abc123") ∧
    (Service.Delete sampleService deleteEnvHappy "abc123" sampleState).trace =
      [Event.getRecord "abc123", Event.getSession,
       Event.deleteObject sampleRecord.Key, Event.deleteRecord "abc123"] :=
  delete_removes_object_and_record sampleService deleteEnvHappy "abc123"
    sampleState sampleRecord rfl (by decide) rfl rfl rfl

/-- Claim C7: whenever the reader reports the requested record missing,
Service.Download returns images.ErrRecordNotFound itself (unwrapped) and its
trace is only the record read: no session is created and no object download
is attempted. -/
theorem download_missing_record_short_circuits (s : Service)
    (env : DownloadEnv) (r : DownloadRequest) (st : State)
    (h : readerGet env.getFault st.records r.ID =
      Except.error GoErr.recordNotFound) :
    (Service.Download s env r st).result =
      Except.error GoErr.recordNotFound ∧
    (Service.Download s env r st).trace = [Event.getRecord r.ID] := by
  simp [Service.Download, h]

/-- Witness for download_missing_record_short_circuits: downloading from the
empty store reports the record missing and touches nothing else. -/
theorem download_missing_record_short_circuits_witness :
    (Service.Download sampleService downloadEnvHappy
        { ID := "abc123", Stream := "out.png" } emptyState).result =
      Except.error GoErr.recordNotFound ∧
    (Service.Download sampleService downloadEnvHappy
        { ID := "abc123", Stream := "out.png" } emptyState).trace =
      [Event.getRecord "abc123"] :=
  download_missing_record_short_circuits sampleService downloadEnvHappy
    { ID := "abc123", Stream := "out.png" } emptyState (by decide)

/-- Claim C8: Service.List maps a successful reader.List result elementwise
through recordSummary, so the returned summaries have exactly the records'
length and order and the i-th summary is built from the i-th record's ID,
Name and SizeInBytes alone (an Image has no other fields). -/
theorem list_projects_to_summary (records : List Record) :
    Service.List (Except.ok records) =
      Except.ok (records.map recordSummary) ∧
    (records.map recordSummary).length = records.length ∧
    ∀ i, (records.map recordSummary).get? i =
      (records.get? i).map (fun rec =>
        { ID := rec.ID, Name := rec.Name, SizeInBytes := rec.SizeInBytes }) := by
  refine ⟨rfl, by simp, fun i => ?_⟩
  cases h : records.get? i <;>
    simp only [List.get?_eq_getElem?] at h <;>
    simp [recordSummary, h]

/-- Claim C5: when the object upload and head-object succeed (with non-nil
ETag and ContentLength) but writer.Create fails, Service.Upload returns an
error and compensates nothing: the freshly uploaded object stays in the
object store, the metadata store is unchanged, and the trace ends at the
failed createRecord call — no further object-store call is made. -/
theorem upload_create_failure_no_compensation (s : Service) (env : UploadEnv)
    (r : UploadRequest) (st : State) (resp : HeadObjectOutput) (e : GoErr)
    (hsess : env.session = Except.ok ())
    (hup : env.uploadResult = none)
    (hhead : env.headResult = Except.ok resp)
    (hetag : resp.ETag.isSome = true)
    (hlen : resp.ContentLength.isSome = true)
    (hcreate : env.createResult = some e) :
    (∃ e2, (Service.Upload s env r st).result = Except.error e2) ∧
    (Service.Upload s env r st).state.objects =
      st.objects ++ [uploadKey r env.imageID] ∧
    (Service.Upload s env r st).state.records = st.records ∧
    ∃ rec, (Service.Upload s env r st).trace =
      [Event.getSession, Event.putObject (uploadKey r env.imageID),
       Event.headObject (uploadKey r env.imageID), Event.createRecord rec] := by
  obtain ⟨sess, upl, head, create, id0, now0⟩ := env
  simp only at hsess hup hhead hcreate
  subst hsess hup hhead hcreate
  obtain ⟨et, het⟩ := Option.isSome_iff_exists.mp hetag
  obtain ⟨cl, hcl⟩ := Option.isSome_iff_exists.mp hlen
  simp [Service.Upload, het, hcl]

/-- Witness for upload_create_failure_no_compensation: sampleRequest under
uploadEnvCreateFails leaves the object behind and the records untouched. -/
theorem upload_create_failure_no_compensation_witness :
    (∃ e2, (Service.Upload sampleService uploadEnvCreateFails sampleRequest
        emptyState).result = Except.error e2) ∧
    (Service.Upload sampleService uploadEnvCreateFails sampleRequest
        emptyState).state.objects =
      emptyState.objects ++ [uploadKey sampleRequest uploadEnvCreateFails.imageID] ∧
    (Service.Upload sampleService uploadEnvCreateFails sampleRequest
        emptyState).state.records = emptyState.records ∧
    ∃ rec, (Service.Upload sampleService uploadEnvCreateFails sampleRequest
        emptyState).trace =
      [Event.getSession,
       Event.putObject (uploadKey sampleRequest uploadEnvCreateFails.imageID),
       Event.headObject (uploadKey sampleRequest uploadEnvCreateFails.imageID),
       Event.createRecord rec] :=
  upload_create_failure_no_compensation sampleService uploadEnvCreateFails
    sampleRequest emptyState
    { ETag := some "etag-1", ContentLength := some 2 }
    (GoErr.goError "random") rfl rfl rfl rfl rfl rfl

/-- Claim C10: when head-object succeeds but reports a nil ETag or a nil
ContentLength, Service.Upload returns the guard error, creates no metadata
record (the metadata store is unchanged and writer.Create is never called),
while the uploaded object stays in the object store. -/
theorem upload_nil_head_metadata_guard (s : Service) (env : UploadEnv)
    (r : UploadRequest) (st : State) (resp : HeadObjectOutput)
    (hsess : env.session = Except.ok ())
    (hup : env.uploadResult = none)
    (hhead : env.headResult = Except.ok resp)
    (hnil : resp.ETag = none ∨ resp.ContentLength = none) :
    (Service.Upload s env r st).result =
      Except.error (GoErr.goError
        "etag and/or content length is nil, unable to save metadata") ∧
    (Service.Upload s env r st).state.records = st.records ∧
    (Service.Upload s env r st).state.objects =
      st.objects ++ [uploadKey r env.imageID] ∧
    ∀ rec, Event.createRecord rec ∉ (Service.Upload s env r st).trace := by
  obtain ⟨sess, upl, head, create, id0, now0⟩ := env
  simp only at hsess hup hhead
  subst hsess hup hhead
  rcases hnil with h | h <;> simp [Service.Upload, h]

/-- Witness for upload_nil_head_metadata_guard: sampleRequest under
uploadEnvNilETag hits the guard and nothing reaches the metadata store. -/
theorem upload_nil_head_metadata_guard_witness :
    (Service.Upload sampleService uploadEnvNilETag sampleRequest
        emptyState).result =
      Except.error (GoErr.goError
        "etag and/or content length is nil, unable to save metadata") ∧
    (Service.Upload sampleService uploadEnvNilETag sampleRequest
        emptyState).state.records = emptyState.records ∧
    (Service.Upload sampleService uploadEnvNilETag sampleRequest
        emptyState).state.objects =
      emptyState.objects ++ [uploadKey sampleRequest uploadEnvNilETag.imageID] ∧
    ∀ rec, Event.createRecord rec ∉
      (Service.Upload sampleService uploadEnvNilETag sampleRequest
        emptyState).trace :=
  upload_nil_head_metadata_guard sampleService uploadEnvNilETag sampleRequest
    emptyState { ETag := none, ContentLength := some 2 } rfl rfl rfl
    (Or.inl rfl)

/-- Counterexample to claim C4: the stored object key is not determined by
the uploaded bytes.  Two requests with identical bodies get different keys
when their names differ, and even the very same request gets a different key
under a different freshly generated image id. -/
theorem upload_key_not_content_addressed :
    ({ Name := "cat.png", Body := [1, 2] } : UploadRequest).Body =
      ({ Name := "dog.png", Body := [1, 2] } : UploadRequest).Body ∧
    uploadKey { Name := "cat.png", Body := [1, 2] } "id-1" ≠
      uploadKey { Name := "dog.png", Body := [1, 2] } "id-1" ∧
    uploadKey { Name := "cat.png", Body := [1, 2] } "id-1" ≠
      uploadKey { Name := "cat.png", Body := [1, 2] } "id-2" := by
  refine ⟨rfl, ?_, ?_⟩ <;> decide

/-- Claim C4 as amended: the location stored in the created record's Key
field is determined by the freshly generated image id and the request's Name
— it is "images/" ++ imageID ++ "/" ++ Name — and is independent of the
uploaded bytes, so uploads with identical content address different
locations whenever their generated ids (or names) differ. -/
theorem upload_key_from_generated_id_and_name (s : Service) (env : UploadEnv)
    (r : UploadRequest) (st : State) (rec : Record)
    (h : Event.createRecord rec ∈ (Service.Upload s env r st).trace) :
    rec.Key = "images/" ++ env.imageID ++ "/" ++ r.Name := by
  obtain ⟨sess, upl, head, create, id0, now0⟩ := env
  cases sess with
  | error e => simp [Service.Upload] at h
  | ok u =>
    cases upl with
    | some e => simp [Service.Upload] at h
    | none =>
      cases head with
      | error e => simp [Service.Upload] at h
      | ok resp =>
        obtain ⟨et, cl⟩ := resp
        cases et <;> cases cl <;> cases create <;>
          simp [Service.Upload] at h <;> simp [h, uploadKey]

/-- Witness for upload_key_from_generated_id_and_name: the record created by
the happy-path upload of sampleRequest carries the id- and name-derived key. -/
theorem upload_key_from_generated_id_and_name_witness :
    uploadedRecord.Key =
      "images/" ++ uploadEnvHappy.imageID ++ "/" ++ sampleRequest.Name :=
  upload_key_from_generated_id_and_name sampleService uploadEnvHappy
    sampleRequest emptyState uploadedRecord (by decide)

/-- Claim C9: inside Service.Delete, an object-store delete failing with an
AWS error whose code contains "NotFound" but is not s3.ErrCodeNoSuchKey is
swallowed by deleteObject (it returns nil), so Delete goes on to remove the
metadata record and succeeds; an AWS error whose code is exactly
s3.ErrCodeNoSuchKey makes Delete return an error with the record still in
the metadata store. -/
theorem delete_object_not_found_swallowed (s : Service) (env : DeleteEnv)
    (id : String) (st : State) (rec : Record) (code : String)
    (hget : env.getFault = none)
    (hfind : st.records.find? (fun r2 => r2.ID == id) = some rec)
    (hsess : env.session = Except.ok ())
    (hcode : env.deleteObjectResult = some (GoErr.awsError code)) :
    (code ≠ s3ErrCodeNoSuchKey → stringsContains code "NotFound" = true →
      (Service.deleteObject s env rec.Key st).result = Except.ok () ∧
      (env.writerDeleteResult = none →
        (Service.Delete s env id st).result = Except.ok () ∧
        (Service.Delete s env id st).state.records =
          st.records.filter (fun r2 => r2.ID ≠ id))) ∧
    (code = s3ErrCodeNoSuchKey →
      (∃ e, (Service.Delete s env id st).result = Except.error e) ∧
      (Service.Delete s env id st).state.records = st.records) := by
  obtain ⟨gf, sess, dor, wdr⟩ := env
  simp only at hget hsess hcode
  subst hget hsess hcode
  constructor
  · intro hne hcontains
    constructor
    · simp [Service.deleteObject, hne, hcontains]
    · intro hwd
      simp only at hwd
      subst hwd
      simp [Service.Delete, Service.deleteObject, readerGet, hfind, hne,
        hcontains]
  · intro heq
    subst heq
    simp [Service.Delete, Service.deleteObject, readerGet, hfind,
      s3ErrCodeNoSuchKey, stringsContains, listOccurs, listStartsWith]

/-- Delete environment whose S3 DeleteObject fails with code "NotFound". -/
def deleteEnvNotFound : DeleteEnv :=
  { deleteEnvHappy with deleteObjectResult := some (.awsError "NotFound") }

/-- Delete environment whose S3 DeleteObject fails with code "NoSuchKey". -/
def deleteEnvNoSuchKey : DeleteEnv :=
  { deleteEnvHappy with deleteObjectResult := some (.awsError "NoSuchKey") }

/-- Witness for delete_object_not_found_swallowed: a "NotFound" delete
failure still lets Delete remove sampleRecord, a "NoSuchKey" one aborts
Delete with the record kept. -/
theorem delete_object_not_found_swallowed_witness :
    (("NotFound" : String) ≠ s3ErrCodeNoSuchKey ∧
      stringsContains "NotFound" "NotFound" = true ∧
      (Service.deleteObject sampleService deleteEnvNotFound sampleRecord.Key
        sampleState).result = Except.ok () ∧
      (Service.Delete sampleService deleteEnvNotFound "abc123"
        sampleState).result = Except.ok () ∧
      (Service.Delete sampleService deleteEnvNotFound "abc123"
        sampleState).state.records =
        sampleState.records.filter (fun r2 => r2.ID ≠ "abc123")) ∧
    ((∃ e, (Service.Delete sampleService deleteEnvNoSuchKey "abc123"
        sampleState).result = Except.error e) ∧
      (Service.Delete sampleService deleteEnvNoSuchKey "abc123"
        sampleState).state.records = sampleState.records) := by
  have h1 := (delete_object_not_found_swallowed sampleService deleteEnvNotFound
    "abc123" sampleState sampleRecord "NotFound" rfl (by decide) rfl rfl).1
    (by decide) (by decide)
  have h2 := (delete_object_not_found_swallowed sampleService
    deleteEnvNoSuchKey "abc123" sampleState sampleRecord "NoSuchKey" rfl
    (by decide) rfl rfl).2 rfl
  exact ⟨⟨by decide, by decide, h1.1, (h1.2 rfl).1, (h1.2 rfl).2⟩, h2⟩

/-- The row-accumulation loop of the couchbase List appends every row in
order: folding push-back over the store starting from acc yields acc
followed by the store. -/
theorem foldl_push_eq_append (l : List Record) :
    ∀ acc, l.foldl (fun a rec => a ++ [rec]) acc = acc ++ l := by
  induction l with
  | nil => intro acc; simp
  | cons x xs ih => intro acc; simp [List.foldl, ih]

/-- Counterexample to claim C6: on a store holding no records the two List
implementations disagree — the couchbase reader returns
images.ErrRecordNotFound while the dynamodb reader returns an empty list
with no error. -/
theorem reader_backends_differ_on_empty :
    couchbaseList [] = Except.error GoErr.recordNotFound ∧
    dynamoList ([] : List Record) = Except.ok [] ∧
    couchbaseList [] ≠ dynamoList ([] : List Record) := by
  refine ⟨rfl, rfl, ?_⟩
  decide

/-- Claim C6 as amended: for every identical set of stored records the two
backends return the same result from Get(id) — on the empty store included —
and the same result from List() whenever the store holds at least one
record; they differ on List() exactly when the store is empty (couchbase
reports ErrRecordNotFound, the dynamodb backend an empty list). -/
theorem reader_backends_agreement (store : List Record) (id : String) :
    couchbaseGet store id = dynamoGet store id ∧
    (store ≠ [] → couchbaseList store = dynamoList store) := by
  refine ⟨rfl, fun hne => ?_⟩
  unfold couchbaseList dynamoList
  rw [foldl_push_eq_append]
  simp [hne]

/-- Witness for reader_backends_agreement: Get agrees both on the one-record
store and on the empty store, and List agrees on the one-record store. -/
theorem reader_backends_agreement_witness :
    couchbaseGet [sampleRecord] "abc123" = dynamoGet [sampleRecord] "abc123" ∧
    couchbaseGet [] "abc123" = dynamoGet [] "abc123" ∧
    couchbaseList [sampleRecord] = dynamoList [sampleRecord] :=
  ⟨(reader_backends_agreement [sampleRecord] "abc123").1,
   (reader_backends_agreement [] "abc123").1,
   (reader_backends_agreement [sampleRecord] "abc123").2 (by decide)⟩

/-- Claim C3, evaluated at a failing input: Runner.runDownloadCommand
(src/internal/runner/runner.go, the runner main.go wires into the CLI) sets
the DownloadRequest ID from the --file flag value instead of the --imageId
flag value.  With a store holding the record whose ID is exactly the
--imageId argument "abc123", invoking download with --imageId abc123
--file out.png looks up "out.png" and fails with ErrRecordNotFound, while
the parallel cmd implementation (src/cmd/cmd.go) builds the request from
--imageId, finds the record and streams the object at its Key into the file
at the --file path. -/
theorem runner_download_uses_file_path_as_id :
    (Runner.downloadRequest
        { filePath := "out.png", imageName := "", imageID := "abc123" }).ID =
      "out.png" ∧
    ("out.png" : String) ≠ "abc123" ∧
    (Runner.runDownloadCommand sampleService downloadEnvHappy
        { filePath := "out.png", imageName := "", imageID := "abc123" }
        sampleState).result = Except.error GoErr.recordNotFound ∧
    (Cmd.downloadRequest "abc123" "out.png").ID = "abc123" ∧
    (Service.Download sampleService downloadEnvHappy
        (Cmd.downloadRequest "abc123" "out.png") sampleState).result =
      Except.ok () ∧
    (Service.Download sampleService downloadEnvHappy
        (Cmd.downloadRequest "abc123" "out.png") sampleState).trace =
      [Event.getRecord "abc123", Event.getSession,
       Event.downloadObject "images/abc123/cat.png" "out.png"] := by
  decide
